import Mathlib

/-!
Verification development for the streaming time-weighted spread aggregator
implemented in `exercises/streaming_spread/time_weight.py`.

Modelling conventions:
* Python floats are modelled as exact rationals (`ℚ`).
* Python exceptions are modelled with `Except Err`: `Err.inputError` is the
  module's `InputError` (the spec's `InvalidInput`) and `Err.quoteError` is
  the module's `QuoteError` (the spec's `OutOfSequence`).
* The dynamic typing inspected by the `isinstance` checks at the public
  `add` entry points is modelled with the `PyVal` type.
* Mutation is modelled by returning the updated state; an exception raised
  before any attribute assignment corresponds to an `Except.error` result
  that carries no updated state.
* `sys.stdout.write` calls in `log` are modelled by returning the list of
  emitted `(microsecond timestamp, value)` records; the textual `%.8f`
  formatting itself is not modelled (the emitted value is the rational).
-/

namespace StreamingSpread

/-- A dynamically typed Python value, as far as the aggregator inspects
one: a float (modelled as `ℚ`), an int, a string, or `None`. -/
inductive PyVal where
  | float (q : ℚ)
  | int (z : ℤ)
  | str (s : String)
  | pynone
deriving DecidableEq

/-- `isinstance(x, float)` (Python ints and bools are not floats). -/
def PyVal.isFloat : PyVal → Bool
  | .float _ => true
  | _ => false

/-- The two exception classes of the module: `InputError` (the spec's
`InvalidInput`) and `QuoteError` (the spec's `OutOfSequence`). -/
inductive Err where
  | inputError
  | quoteError
deriving DecidableEq

/-- Python truthiness of an optional float, as used by
`if self.ask and self.bid:` — both `None` and `0.0` are falsy. -/
def truthy : Option ℚ → Bool
  | none => false
  | some x => x != 0

/-- Python's built-in `round(x, ndigits)`: round half to even, on the exact
rational modelling the float. -/
def pyRound (x : ℚ) (ndigits : ℕ) : ℚ :=
  let scale : ℚ := (10 : ℚ) ^ ndigits
  let y := x * scale
  let f : ℤ := Int.floor y
  let frac := y - (f : ℚ)
  let r : ℤ :=
    if frac < 1 / 2 then f
    else if 1 / 2 < frac then f + 1
    else if f % 2 = 0 then f else f + 1
  (r : ℚ) / scale

/-- Python's `int(x)` applied to a float: truncation toward zero. -/
def pyInt (x : ℚ) : ℤ := Int.tdiv x.num (x.den : ℤ)

/-- `sec_to_microsec = lambda x: x * 1000000.0`. -/
def sec_to_microsec (x : ℚ) : ℚ := x * 1000000

/-- Module-level constant `float_multiplier = 1`. -/
def float_multiplier : ℚ := 1

/-- State of a `QuotePair` object: `current_ts`, `ask`, `bid`
(each `None` initially). -/
structure QuotePair where
  current_ts : Option ℚ
  ask : Option ℚ
  bid : Option ℚ
deriving DecidableEq

/-- `QuotePair.__init__`. -/
def QuotePair.init : QuotePair := ⟨none, none, none⟩

/-- `QuotePair._update_quote(side, price)`: sets the named side, raising
`QuoteError` if that side is already set.  For a side other than `":a"` or
`":b"` it does nothing (that case is unreachable after the input checks in
`add`). -/
def QuotePair.update_quote (qp : QuotePair) (side : String) (price : ℚ) :
    Except Err QuotePair :=
  if side = ":a" then
    if qp.ask ≠ none then .error .quoteError
    else .ok { qp with ask := some price }
  else if side = ":b" then
    if qp.bid ≠ none then .error .quoteError
    else .ok { qp with bid := some price }
  else .ok qp

/-- `QuotePair._clear_prices()`. -/
def QuotePair.clear_prices (qp : QuotePair) : QuotePair :=
  { qp with ask := none, bid := none }

/-- The tail of `QuotePair.add` (lines after the duplicate/new-time
checks): `self._update_quote(side, price)`, `self.current_ts = ts`, and the
final `if self.ask and self.bid: return spread` truthiness check. -/
def QuotePair.finishAdd (qp : QuotePair) (t : ℚ) (s : String) (p : ℚ) :
    Except Err (QuotePair × Option ℚ) :=
  match qp.update_quote s p with
  | .error e => .error e
  | .ok qp2 =>
    let qp3 := { qp2 with current_ts := some t }
    if truthy qp3.ask && truthy qp3.bid then
      .ok (qp3, some (qp3.ask.getD 0 - qp3.bid.getD 0))
    else .ok (qp3, none)

/-- `QuotePair.add(ts, side, price)`.  The three `isinstance`/token checks
at the top all raise the same `InputError`, so they are modelled together.
A successful call returns the updated state and the spread (`some` when the
pair completed, `none` otherwise, mirroring `return spread` / `return`). -/
def QuotePair.add (qp : QuotePair) (ts side price : PyVal) :
    Except Err (QuotePair × Option ℚ) :=
  match ts, price with
  | .float t, .float p =>
    match side with
    | .str s =>
      if s ≠ ":a" ∧ s ≠ ":b" then .error .inputError
      else
        -- `if self.current_ts is None: self.current_ts = ts; new_time = 0`
        let step : QuotePair × ℚ :=
          match qp.current_ts with
          | none => ({ qp with current_ts := some t }, 0)
          | some c => (qp, t - c)
        let qp0 := step.1
        let new_time := step.2
        if new_time ≠ 0 then
          -- new timestamp: the previous pair must have been completed
          if qp0.ask = none ∨ qp0.bid = none then .error .quoteError
          else qp0.clear_prices.finishAdd t s p
        else
          -- same timestamp: duplicate-pair check (float truthiness)
          if truthy qp0.ask && truthy qp0.bid then .error .quoteError
          else qp0.finishAdd t s p
    | _ => .error .inputError
  | _, _ => .error .inputError

/-- State of a `TimeCache` object.  `archive` holds
`(whole second, weighted average or None)` pairs (`floor` returns a Python
int, hence `ℤ`); `tmp_cache` holds raw `(timestamp, spread)` records. -/
structure TimeCache where
  archive : List (ℤ × Option ℚ)
  last_spread : Option ℚ
  tmp_cache : List (ℚ × ℚ)
deriving DecidableEq

/-- `TimeCache.__init__`. -/
def TimeCache.init : TimeCache := ⟨[], none, []⟩

/-- `TimeCache._get_last_archive_ts()`: `self.archive[-1][0]`.  On an empty
archive Python would raise `IndexError`; a default of `0` is used here for
totality (the method is only reached with a non-empty archive). -/
def TimeCache.get_last_archive_ts (tc : TimeCache) : ℤ :=
  (tc.archive.getLastD (0, none)).1

/-- The `while i < len(self.tmp_cache)` loop of
`_get_spreads_and_time_weights`: for each consecutive pair of records the
earlier record's spread, weighted by the timestamp difference. -/
def interRecordWeights : List (ℚ × ℚ) → List ℚ × List ℚ
  | (t0, s0) :: (t1, s1) :: rest =>
    let acc := interRecordWeights ((t1, s1) :: rest)
    (s0 :: acc.1, (t1 - t0) :: acc.2)
  | _ => ([], [])

/-- `TimeCache._get_spreads_and_time_weights()`.  On an empty `tmp_cache`
Python would raise `IndexError`; defaults are used here for totality (the
method is only reached with a non-empty `tmp_cache`). -/
def TimeCache.get_spreads_and_time_weights (tc : TimeCache) :
    List ℚ × List ℚ :=
  let lastArchiveTs : ℚ := (tc.get_last_archive_ts : ℚ)
  -- `if self.last_spread is not None:` leading sub-interval
  let lead : List ℚ × List ℚ :=
    match tc.last_spread with
    | some first_spread =>
      ([first_spread], [(tc.tmp_cache.headD (0, 0)).1 - lastArchiveTs])
    | none => ([], [])
  let mid := interRecordWeights tc.tmp_cache
  let lastRec := tc.tmp_cache.getLastD (0, 0)
  (lead.1 ++ mid.1 ++ [lastRec.2],
   lead.2 ++ mid.2 ++ [lastArchiveTs + float_multiplier - lastRec.1])

/-- `TimeCache._weight_time(spreads, time_weights)`.  The Python loop runs
over `range(len(spreads))`, indexing both lists in lock-step, which the
`zip` mirrors (the two lists produced by `_get_spreads_and_time_weights`
always have equal length).  Division by a zero `time_sum`, a
`ZeroDivisionError` in Python, yields `0` under `ℚ` division. -/
def TimeCache.weight_time (spreads time_weights : List ℚ) : ℚ :=
  let pairs := spreads.zip time_weights
  let twa := pairs.foldl (fun acc sw => acc + sw.1 * sw.2) 0
  let time_sum := pairs.foldl (fun acc sw => acc + sw.2) 0
  pyRound (twa / time_sum) 8

/-- The weighted average computed at the top of `_update_archive`:
`_weight_time` applied to `_get_spreads_and_time_weights`. -/
def TimeCache.closingAverage (tc : TimeCache) : ℚ :=
  let sw := tc.get_spreads_and_time_weights
  TimeCache.weight_time sw.1 sw.2

/-- `TimeCache._cold_cache(ts, spread)`: returns the updated state and the
Python return value (`1`, `0`, or the implicit `None`). -/
def TimeCache.cold_cache (tc : TimeCache) (ts spread : ℚ) :
    TimeCache × Option ℤ :=
  if tc.tmp_cache.length = 0 then
    let tc1 := { tc with tmp_cache := tc.tmp_cache ++ [(ts, spread)] }
    if tc.archive.length = 0 then
      ({ tc1 with archive := [(Int.floor ts, none)] }, some 1)
    else (tc1, none)
  else (tc, some 0)

/-- `TimeCache._update_archive(ts, spread)`. -/
def TimeCache.update_archive (tc : TimeCache) (ts spread : ℚ) : TimeCache :=
  { archive := tc.archive ++ [(Int.floor ts, some tc.closingAverage)],
    last_spread := some (tc.tmp_cache.getLastD (0, 0)).2,
    tmp_cache := [(ts, spread)] }

/-- `TimeCache.add(ts, spread)`: type checks, cold-start handling, then
either promotion of the closed second (`return 1`) or buffering
(`return 0`); the cold-start path is the implicit `return` (`None`). -/
def TimeCache.add (tc : TimeCache) (ts spread : PyVal) :
    Except Err (TimeCache × Option ℤ) :=
  match ts, spread with
  | .float t, .float s =>
    let cold := tc.cold_cache t s
    let tc1 := cold.1
    if cold.2 = some 1 then .ok (tc1, none)
    else
      let duration : ℚ := t - (tc1.get_last_archive_ts : ℚ)
      if duration > 1 then .ok (tc1.update_archive t s, some 1)
      else .ok ({ tc1 with tmp_cache := tc1.tmp_cache ++ [(t, s)] }, some 0)
  | _, _ => .error .inputError

/-- The `while last_logged_ts < this_ts and price is not None:` loop body
of `log`: one emitted record per whole second from `lastLogged` up to but
excluding `thisTs`. -/
def fillGap (lastLogged thisTs : ℤ) (price : ℚ) : List (ℤ × ℚ) :=
  (List.range (thisTs - lastLogged).toNat).map
    (fun k => (pyInt (sec_to_microsec ((lastLogged + (k : ℤ) : ℤ) : ℚ)), price))

/-- The `for i, data in enumerate(self.archive)` loop of `log`, positioned
after the `i == 0` iteration: `prev` is `archive[i-1]` and the list
argument holds `archive[i:]`.  After a gap-fill `last_logged_ts` has become
`max` of its old value and `this_ts`; when `price is None` the `while`
loop does not run and `last_logged_ts` is unchanged. -/
def logWalk (lastLogged : ℤ) (prev : ℤ × Option ℚ) :
    List (ℤ × Option ℚ) → List (ℤ × ℚ)
  | [] => []
  | cur :: rest =>
    match prev.2 with
    | some price =>
      fillGap lastLogged cur.1 price ++ logWalk (max lastLogged cur.1) cur rest
    | none => logWalk lastLogged cur rest

/-- `TimeCache.log()`: returns the emitted records and the truncated state,
or `none` when the Python code crashes: with fewer than two archive entries
the `for` loop body never executes past the `i == 0` `continue`, so the
trailing `sys.stdout.write` raises `UnboundLocalError` on `this_ts` (and on
an empty archive `self.archive[0]` raises `IndexError` first); a `None`
average in the final entry would raise `TypeError` under `%f` formatting. -/
def TimeCache.log (tc : TimeCache) : Option (List (ℤ × ℚ) × TimeCache) :=
  match tc.archive with
  | a0 :: a1 :: rest =>
    let emissions := logWalk (a0.1 + 1) a0 (a1 :: rest)
    let lastE := (a1 :: rest).getLastD a1
    match lastE.2 with
    | some v =>
      some (emissions ++ [(pyInt (sec_to_microsec (lastE.1 : ℚ)), v)],
            { tc with archive := [lastE] })
    | none => none
  | _ => none

/-- The driver state of `compute_twa`: one `QuotePair` and one `TimeCache`. -/
structure Driver where
  pair : QuotePair
  cache : TimeCache
deriving DecidableEq

/-- Fresh driver state. -/
def Driver.init : Driver := ⟨QuotePair.init, TimeCache.init⟩

/-- One iteration of the `compute_twa` loop on an already-parsed record
`(ts, side, price)` (the textual parsing and microsecond-to-second scaling
of the raw line are elided; records enter exactly as passed to
`pair_cache.add`).  A `QuoteError` is caught, logged and skipped; an
uncaught `InputError` or a crash inside `log` aborts the run (`none`).
`if log_ready:` is truthy exactly for the return value `1`. -/
def processRecord (st : Driver) (rec : PyVal × PyVal × PyVal) :
    Option (Driver × List (ℤ × ℚ)) :=
  match QuotePair.add st.pair rec.1 rec.2.1 rec.2.2 with
  | .error .quoteError => some (st, [])
  | .error .inputError => none
  | .ok (pair1, spreadOpt) =>
    match spreadOpt with
    | none => some ({ st with pair := pair1 }, [])
    | some sp =>
      match TimeCache.add st.cache rec.1 (.float sp) with
      | .error _ => none
      | .ok (cache1, ready) =>
        if ready = some 1 then
          match TimeCache.log cache1 with
          | none => none
          | some (out, cache2) => some (⟨pair1, cache2⟩, out)
        else some (⟨pair1, cache1⟩, [])

/-- Folding `processRecord` over a record list, concatenating emissions. -/
def runRecords (st : Driver) :
    List (PyVal × PyVal × PyVal) → Option (Driver × List (ℤ × ℚ))
  | [] => some (st, [])
  | r :: rs =>
    match processRecord st r with
    | none => none
    | some (st1, out) =>
      match runRecords st1 rs with
      | none => none
      | some (st2, outs) => some (st2, out ++ outs)

/-- `compute_twa` on a stream of already-parsed records. -/
def compute_twa (records : List (PyVal × PyVal × PyVal)) :
    Option (Driver × List (ℤ × ℚ)) :=
  runRecords Driver.init records

/-- One successful `TimeCache.add` call. -/
def TCAddStep (tc tc' : TimeCache) : Prop :=
  ∃ ts spread r, TimeCache.add tc ts spread = .ok (tc', r)

/-- One successful `TimeCache.add` or `TimeCache.log` call. -/
def TCStep (tc tc' : TimeCache) : Prop :=
  TCAddStep tc tc' ∨ ∃ out, TimeCache.log tc = some (out, tc')

/-- Reachability from a fresh `TimeCache` by `add` and `log` calls. -/
def TCReach (tc : TimeCache) : Prop :=
  Relation.ReflTransGen TCStep TimeCache.init tc

/-- Reachability from a fresh `TimeCache` by `add` calls only. -/
def TCAddReach (tc : TimeCache) : Prop :=
  Relation.ReflTransGen TCAddStep TimeCache.init tc

/-- Invariant maintained by `add`: either the cache is entirely cold (both
ledgers empty), or the archive starts with the cold-start sentinel entry
whose average is `None`. -/
def ColdInv (tc : TimeCache) : Prop :=
  (tc.archive = [] ∧ tc.tmp_cache = []) ∨
  ∃ t rest, tc.archive = (t, (none : Option ℚ)) :: rest

/-- The end-to-end scenario record stream: alternating bid/ask pairs at
seconds 800.2, 800.6, 801.5, 803.3, 804.2 with spreads
0.10, 0.20, 0.10, 0.15, 0.10. -/
def c2Records : List (PyVal × PyVal × PyVal) :=
  [(.float 800.2, .str ":b", .float 10.0), (.float 800.2, .str ":a", .float 10.10),
   (.float 800.6, .str ":b", .float 10.0), (.float 800.6, .str ":a", .float 10.20),
   (.float 801.5, .str ":b", .float 10.0), (.float 801.5, .str ":a", .float 10.10),
   (.float 803.3, .str ":b", .float 10.0), (.float 803.3, .str ":a", .float 10.15),
   (.float 804.2, .str ":b", .float 10.0), (.float 804.2, .str ":a", .float 10.10)]

/-! ### Helper lemmas -/

theorem str_b_ne_a : (":b" : String) ≠ ":a" := by decide

theorem str_a_ne_b : (":a" : String) ≠ ":b" := by decide

theorem pyInt_intCast (z : ℤ) : pyInt ((z : ℚ)) = z := by
  simp only [pyInt, Rat.num_intCast, Rat.den_intCast, Nat.cast_one, Int.tdiv_one]

theorem pyInt_sec_to_microsec_int (z : ℤ) :
    pyInt (sec_to_microsec (z : ℚ)) = z * 1000000 := by
  have h : sec_to_microsec (z : ℚ) = ((z * 1000000 : ℤ) : ℚ) := by
    push_cast [sec_to_microsec]; ring
  rw [h, pyInt_intCast]

/-- The weighted average of the cold-start window with exactly two buffered
records at offsets 0.2 and 0.6 into the second. -/
theorem closingAverage_cold_two (T : ℤ) (s1 s2 : ℚ) :
    TimeCache.closingAverage
        ⟨[(T, none)], none, [((T : ℚ) + 0.2, s1), ((T : ℚ) + 0.6, s2)]⟩
      = pyRound ((s1 * 0.4 + s2 * 0.4) / 0.8) 8 := by
  simp only [TimeCache.closingAverage, TimeCache.get_spreads_and_time_weights,
    TimeCache.weight_time, TimeCache.get_last_archive_ts, interRecordWeights,
    float_multiplier, List.getLastD_cons, List.getLastD_nil, List.headD,
    List.nil_append, List.cons_append, List.zip, List.zipWith, List.foldl]
  congr 1
  ring

/-- The sub-interval weights of the same cold-start window are exactly
`[0.4, 0.4]` — the undefined leading sub-interval is omitted. -/
theorem cold_two_weights (T : ℤ) (s1 s2 : ℚ) :
    TimeCache.get_spreads_and_time_weights
        ⟨[(T, none)], none, [((T : ℚ) + 0.2, s1), ((T : ℚ) + 0.6, s2)]⟩
      = ([s1, s2], [0.4, 0.4]) := by
  simp only [TimeCache.get_spreads_and_time_weights, TimeCache.get_last_archive_ts,
    interRecordWeights, float_multiplier, List.getLastD_cons, List.getLastD_nil,
    List.headD, List.nil_append, List.cons_append]
  have h1 : ((T : ℚ) + 0.6 - ((T : ℚ) + 0.2) : ℚ) = 0.4 := by ring
  have h2 : ((T : ℚ) + 1 - ((T : ℚ) + 0.6) : ℚ) = 0.4 := by ring
  rw [h1, h2]

/-! ### Claim theorems -/

/-- C1: for a cold-start window with archive `[(T, none)]`,
`tmp_cache = [(T+0.2, s1), (T+0.6, s2)]` and `last_spread` unset, the
sub-intervals used for the closing second omit the leading piece before the
first observation (weights are exactly `[0.4, 0.4]`), the computed average
is `(s1*0.4 + s2*0.4) / 0.8` (up to the fixed 8-digit rounding the code
applies), and for `s1 = 0.000010`, `s2 = 0.000020` the result is exactly
`0.000015`. -/
theorem cold_window_weighted_average (T : ℤ) (s1 s2 : ℚ) :
    TimeCache.get_spreads_and_time_weights
        ⟨[(T, none)], none, [((T : ℚ) + 0.2, s1), ((T : ℚ) + 0.6, s2)]⟩
      = ([s1, s2], [0.4, 0.4]) ∧
    TimeCache.closingAverage
        ⟨[(T, none)], none, [((T : ℚ) + 0.2, s1), ((T : ℚ) + 0.6, s2)]⟩
      = pyRound ((s1 * 0.4 + s2 * 0.4) / 0.8) 8 ∧
    TimeCache.closingAverage
        ⟨[(T, none)], none, [((T : ℚ) + 0.2, 0.000010), ((T : ℚ) + 0.6, 0.000020)]⟩
      = 0.000015 := by
  refine ⟨cold_two_weights T s1 s2, closingAverage_cold_two T s1 s2, ?_⟩
  rw [closingAverage_cold_two]
  have harg : ((0.000010 : ℚ) * 0.4 + 0.000020 * 0.4) / 0.8 = 0.000015 := by norm_num
  rw [harg]
  norm_num [pyRound]

/-- C5 (bug demonstration): calling `log()` on an archive holding only its
single anchor entry — the state left behind by a previous `log()` — does
not emit nothing and return: the `for` loop body never runs past the
`i == 0` `continue`, so the trailing write raises `UnboundLocalError` on
`this_ts` (modelled by the `none` result). -/
theorem log_single_entry_archive_crashes (tc : TimeCache) (e : ℤ × Option ℚ)
    (h : tc.archive = [e]) : TimeCache.log tc = none := by
  simp [TimeCache.log, h]

theorem log_single_entry_archive_crashes_witness :
    TimeCache.log ⟨[(804, some 0.135)], some 0.15, [(804.2, 0.1)]⟩ = none :=
  log_single_entry_archive_crashes _ (804, some 0.135) rfl

/-- C9: on a non-cold cache, an `add` whose timestamp lands exactly one
second after the last archived second does not promote: the record is
buffered in `tmp_cache`, the archive is untouched, and the call returns 0
(not ready).  Promotion requires `duration > 1.0` strictly. -/
theorem exact_boundary_no_promotion (tc : TimeCache) (t s : ℚ)
    (_ha : tc.archive ≠ []) (hw : tc.tmp_cache ≠ [])
    (hb : t - (tc.get_last_archive_ts : ℚ) = 1) :
    TimeCache.add tc (.float t) (.float s) =
      .ok ({ tc with tmp_cache := tc.tmp_cache ++ [(t, s)] }, some 0) := by
  have hlen : tc.tmp_cache.length ≠ 0 := by simpa using hw
  simp [TimeCache.add, TimeCache.cold_cache, hlen, hb]

theorem exact_boundary_no_promotion_witness :
    TimeCache.add ⟨[(800, none)], none, [(800.2, 0.1)]⟩ (.float 801) (.float 0.3) =
      .ok (⟨[(800, none)], none, [(800.2, 0.1), (801, 0.3)]⟩, some 0) :=
  exact_boundary_no_promotion ⟨[(800, none)], none, [(800.2, 0.1)]⟩ 801 0.3
    (by simp) (by simp)
    (by norm_num [TimeCache.get_last_archive_ts, List.getLastD_cons, List.getLastD_nil])

/-- C10: `QuotePair.add` enforces no timestamp monotonicity: from any state
whose pair is complete (both sides set), a call with any timestamp `t`
different from `current_ts` — including `t` strictly smaller — is accepted,
the old prices are cleared (only the new side's price is set), `current_ts`
becomes `t`, and no spread is returned. -/
theorem no_monotonicity_enforced (cts a b t p : ℚ) (s : String)
    (hs : s = ":a" ∨ s = ":b") (ht : t ≠ cts) :
    QuotePair.add ⟨some cts, some a, some b⟩ (.float t) (.str s) (.float p) =
      .ok (⟨some t, if s = ":a" then some p else none,
            if s = ":b" then some p else none⟩, none) := by
  have hnz : t - cts ≠ 0 := sub_ne_zero.mpr ht
  rcases hs with rfl | rfl
  · simp [QuotePair.add, QuotePair.clear_prices, QuotePair.finishAdd,
      QuotePair.update_quote, truthy, hnz, str_a_ne_b]
  · simp [QuotePair.add, QuotePair.clear_prices, QuotePair.finishAdd,
      QuotePair.update_quote, truthy, hnz, str_b_ne_a]

theorem no_monotonicity_enforced_witness :
    QuotePair.add ⟨some 5, some 2, some 1⟩ (.float 3) (.str ":b") (.float 7) =
      .ok (⟨some 3, none, some 7⟩, none) := by
  have h := no_monotonicity_enforced 5 2 1 3 7 ":b" (Or.inr rfl) (by norm_num)
  simpa using h

/-- C7: if exactly one of bid/ask is set for the current timestamp, an
`add` with a different timestamp fails with `QuoteError` (the spec's
`OutOfSequence`); the error is raised before any attribute assignment, so
the state is unchanged. -/
theorem incomplete_pair_new_ts_rejected (qp : QuotePair) (cts t p : ℚ) (s : String)
    (hc : qp.current_ts = some cts)
    (hone : (qp.ask = none ∧ qp.bid ≠ none) ∨ (qp.ask ≠ none ∧ qp.bid = none))
    (hs : s = ":a" ∨ s = ":b") (ht : t ≠ cts) :
    QuotePair.add qp (.float t) (.str s) (.float p) = .error .quoteError := by
  have hnz : t - cts ≠ 0 := sub_ne_zero.mpr ht
  rcases hone with ⟨h1, h2⟩ | ⟨h1, h2⟩ <;> rcases hs with rfl | rfl <;>
    simp [QuotePair.add, hc, hnz, h1, h2, str_a_ne_b, str_b_ne_a]

theorem incomplete_pair_new_ts_rejected_witness :
    QuotePair.add ⟨some 2, some 9, none⟩ (.float 4) (.str ":a") (.float 1) =
      .error .quoteError :=
  incomplete_pair_new_ts_rejected ⟨some 2, some 9, none⟩ 2 4 1 ":a" rfl
    (Or.inr (by simp)) (Or.inl rfl) (by norm_num)

theorem interRecordWeights_sum (l : List (ℚ × ℚ)) (x : ℚ × ℚ) :
    ((interRecordWeights (x :: l)).2).sum = (l.getLastD x).1 - x.1 := by
  induction l generalizing x with
  | nil => simp [interRecordWeights]
  | cons y ys ih =>
    obtain ⟨t0, s0⟩ := x
    obtain ⟨t1, s1⟩ := y
    simp only [interRecordWeights, List.sum_cons, ih ⟨t1, s1⟩, List.getLastD_cons]
    ring

/-- C6 counterexample: the very first promoted window (cold start,
`last_spread` unset) has sub-interval durations summing to `0.8`, not
`1.0`: the state below arises from the first ever `add(800.2, 0.1)`, and
`add(801.5, 0.2)` promotes it. -/
theorem weights_sum_cold_cex :
    TimeCache.add TimeCache.init (.float 800.2) (.float 0.1) =
      .ok (⟨[(800, none)], none, [(800.2, 0.1)]⟩, none) ∧
    TimeCache.add ⟨[(800, none)], none, [(800.2, 0.1)]⟩ (.float 801.5) (.float 0.2) =
      .ok (TimeCache.update_archive ⟨[(800, none)], none, [(800.2, 0.1)]⟩ 801.5 0.2,
        some 1) ∧
    (TimeCache.get_spreads_and_time_weights
        ⟨[(800, none)], none, [(800.2, 0.1)]⟩).2.sum = 0.8 ∧
    (0.8 : ℚ) ≠ 1 := by
  refine ⟨?_, ?_, ?_, by norm_num⟩
  · norm_num [TimeCache.add, TimeCache.init, TimeCache.cold_cache]
  · norm_num [TimeCache.add, TimeCache.cold_cache, TimeCache.get_last_archive_ts]
  · norm_num [TimeCache.get_spreads_and_time_weights, TimeCache.get_last_archive_ts,
      interRecordWeights, float_multiplier]

/-- C6 (amended): for every window whose leading sub-interval exists
(`last_spread` known, i.e. every promoted window after the cold-start one),
the sub-interval durations — leading piece, inter-record pieces, trailing
piece — sum to exactly `1.0` second; the cold-start window instead sums to
`floor(t0) + 1 − t0`. -/
theorem weights_sum_one_warm (tc : TimeCache) (fs : ℚ)
    (hls : tc.last_spread = some fs) (htmp : tc.tmp_cache ≠ []) :
    (tc.get_spreads_and_time_weights).2.sum = 1 := by
  obtain ⟨x, l, hxl⟩ := List.exists_cons_of_ne_nil htmp
  simp only [TimeCache.get_spreads_and_time_weights, hls, hxl, List.headD,
    List.getLastD_cons, List.append_assoc, List.cons_append, List.nil_append,
    List.sum_append, List.sum_cons, List.sum_nil, interRecordWeights_sum,
    float_multiplier]
  ring

theorem weights_sum_one_warm_witness :
    (TimeCache.get_spreads_and_time_weights
        ⟨[(801, some 0.15)], some 0.2, [(801.5, 0.1)]⟩).2.sum = 1 :=
  weights_sum_one_warm ⟨[(801, some 0.15)], some 0.2, [(801.5, 0.1)]⟩ 0.2 rfl
    (by simp)

/-- C8: the `isinstance`/token checks run before anything else in
`QuotePair.add` and `TimeCache.add`: a non-float timestamp, price or
spread, or an unrecognized side token, yields `InputError` (the spec's
`InvalidInput`), and since the checks precede every attribute assignment no
state change occurs (the error carries no updated state). -/
theorem invalid_input_type_checks :
    (∀ (qp : QuotePair) (ts side price : PyVal),
        (PyVal.isFloat ts = false ∨ PyVal.isFloat price = false ∨
          (side ≠ .str ":a" ∧ side ≠ .str ":b")) →
        QuotePair.add qp ts side price = .error .inputError) ∧
    (∀ (tc : TimeCache) (ts spread : PyVal),
        (PyVal.isFloat ts = false ∨ PyVal.isFloat spread = false) →
        TimeCache.add tc ts spread = .error .inputError) := by
  constructor
  · rintro qp ts side price h
    cases ts <;> cases price <;> cases side <;>
      simp_all [QuotePair.add, PyVal.isFloat]
  · rintro tc ts spread h
    cases ts <;> cases spread <;> simp_all [TimeCache.add, PyVal.isFloat]

theorem invalid_input_type_checks_witness :
    QuotePair.add QuotePair.init (.int 5) (.str ":a") (.float 1) =
      .error .inputError ∧
    TimeCache.add TimeCache.init (.float 1) (.str "x") = .error .inputError :=
  ⟨invalid_input_type_checks.1 QuotePair.init (.int 5) (.str ":a") (.float 1)
      (Or.inl rfl),
   invalid_input_type_checks.2 TimeCache.init (.float 1) (.str "x")
      (Or.inr rfl)⟩

lemma add_b_ok (qp qp1 : QuotePair) (t pb : ℚ) (r1 : Option ℚ)
    (h : QuotePair.add qp (.float t) (.str ":b") (.float pb) = .ok (qp1, r1)) :
    qp1.current_ts = some t ∧ qp1.bid = some pb := by
  obtain ⟨cts, a, b⟩ := qp
  cases cts <;>
    simp only [QuotePair.add, ne_eq, str_b_ne_a, not_false_eq_true, not_true_eq_false,
      and_false, ite_false, QuotePair.clear_prices] at h <;>
    split_ifs at h <;>
    simp_all [QuotePair.finishAdd, QuotePair.update_quote, str_b_ne_a] <;>
    (try cases b) <;> simp_all <;>
    split_ifs at h <;>
    rw [Except.ok.injEq, Prod.mk.injEq] at h <;>
    (obtain ⟨rfl, -⟩ := h) <;> simp

lemma add_a_ok (qp qp1 : QuotePair) (t pa : ℚ) (r1 : Option ℚ)
    (h : QuotePair.add qp (.float t) (.str ":a") (.float pa) = .ok (qp1, r1)) :
    qp1.current_ts = some t ∧ qp1.ask = some pa := by
  obtain ⟨cts, a, b⟩ := qp
  cases cts <;>
    simp only [QuotePair.add, ne_eq, str_a_ne_b, not_false_eq_true, not_true_eq_false,
      false_and, and_false, ite_false, QuotePair.clear_prices] at h <;>
    split_ifs at h <;>
    simp_all [QuotePair.finishAdd, QuotePair.update_quote, str_a_ne_b] <;>
    (try cases a) <;> simp_all <;>
    split_ifs at h <;>
    rw [Except.ok.injEq, Prod.mk.injEq] at h <;>
    (obtain ⟨rfl, -⟩ := h) <;> simp

lemma add_a_after_b (a : Option ℚ) (t pa pb : ℚ) (qp2 : QuotePair) (r2 : Option ℚ)
    (hpb : pb ≠ 0) (hpa : pa ≠ 0)
    (h : QuotePair.add ⟨some t, a, some pb⟩ (.float t) (.str ":a") (.float pa) =
      .ok (qp2, r2)) :
    qp2 = ⟨some t, some pa, some pb⟩ ∧ r2 = some (pa - pb) := by
  cases a with
  | none =>
    simp [QuotePair.add, QuotePair.finishAdd, QuotePair.update_quote, truthy,
      str_a_ne_b, hpa, hpb, sub_self] at h
    exact ⟨h.1.symm, h.2.symm⟩
  | some a0 =>
    by_cases ha0 : a0 = 0
    · subst ha0
      simp [QuotePair.add, QuotePair.finishAdd, QuotePair.update_quote, truthy,
        str_a_ne_b, sub_self] at h
    · simp [QuotePair.add, truthy, sub_self, ha0, hpb] at h

lemma add_b_after_a (b : Option ℚ) (t pa pb : ℚ) (qp2 : QuotePair) (r2 : Option ℚ)
    (hpb : pb ≠ 0) (hpa : pa ≠ 0)
    (h : QuotePair.add ⟨some t, some pa, b⟩ (.float t) (.str ":b") (.float pb) =
      .ok (qp2, r2)) :
    qp2 = ⟨some t, some pa, some pb⟩ ∧ r2 = some (pa - pb) := by
  cases b with
  | none =>
    simp [QuotePair.add, QuotePair.finishAdd, QuotePair.update_quote, truthy,
      str_b_ne_a, hpa, hpb, sub_self] at h
    exact ⟨h.1.symm, h.2.symm⟩
  | some b0 =>
    by_cases hb0 : b0 = 0
    · subst hb0
      simp [QuotePair.add, QuotePair.finishAdd, QuotePair.update_quote, truthy,
        str_b_ne_a, sub_self] at h
    · simp [QuotePair.add, truthy, sub_self, hb0, hpa] at h

lemma complete_pair_same_ts_rejected (t pa pb p : ℚ) (s : String)
    (hpa : pa ≠ 0) (hpb : pb ≠ 0) (hs : s = ":a" ∨ s = ":b") :
    QuotePair.add ⟨some t, some pa, some pb⟩ (.float t) (.str s) (.float p) =
      .error .quoteError := by
  rcases hs with rfl | rfl <;>
    simp [QuotePair.add, truthy, sub_self, hpa, hpb, str_a_ne_b, str_b_ne_a]

/-- C4 counterexample: with a bid price of `0.0` the completing call does
not return the spread `pa - pb = 2`: the final completion check
`if self.ask and self.bid` uses float truthiness, so `bid = 0.0` never
counts as set and the second call returns no spread at all. -/
theorem quote_pair_zero_price_cex :
    QuotePair.add QuotePair.init (.float 1) (.str ":b") (.float 0) =
      .ok (⟨some 1, none, some 0⟩, none) ∧
    QuotePair.add ⟨some 1, none, some 0⟩ (.float 1) (.str ":a") (.float 2) =
      .ok (⟨some 1, some 2, some 0⟩, none) ∧
    (none : Option ℚ) ≠ some (2 - 0) := by
  refine ⟨?_, ?_, by simp⟩
  · norm_num [QuotePair.add, QuotePair.init, QuotePair.finishAdd,
      QuotePair.update_quote, truthy, str_b_ne_a]
  · norm_num [QuotePair.add, QuotePair.finishAdd, QuotePair.update_quote,
      truthy, str_a_ne_b]

/-- C4 (amended): for two consecutive `add` calls sharing timestamp `t`,
one bid with price `pb` and one ask with price `pa` (in either order),
*provided both prices are nonzero* (the completion check uses float
truthiness, so a `0.0` price never completes a pair), the second call
returns the spread `pa - pb`, and every subsequent well-typed `add` at the
same timestamp fails with `QuoteError` (the spec's `OutOfSequence`). -/
theorem quote_pair_spread_once (qp qp1 qp2 : QuotePair) (t pa pb : ℚ)
    (r1 r2 : Option ℚ) (hpa : pa ≠ 0) (hpb : pb ≠ 0)
    (hcalls :
      (QuotePair.add qp (.float t) (.str ":b") (.float pb) = .ok (qp1, r1) ∧
       QuotePair.add qp1 (.float t) (.str ":a") (.float pa) = .ok (qp2, r2)) ∨
      (QuotePair.add qp (.float t) (.str ":a") (.float pa) = .ok (qp1, r1) ∧
       QuotePair.add qp1 (.float t) (.str ":b") (.float pb) = .ok (qp2, r2))) :
    r2 = some (pa - pb) ∧
    ∀ (s : String) (p : ℚ), (s = ":a" ∨ s = ":b") →
      QuotePair.add qp2 (.float t) (.str s) (.float p) = .error .quoteError := by
  rcases hcalls with ⟨h1, h2⟩ | ⟨h1, h2⟩
  · obtain ⟨c1, c2⟩ := add_b_ok qp qp1 t pb r1 h1
    obtain ⟨cts1, a1, b1⟩ := qp1
    simp only [] at c1 c2
    subst c1
    subst c2
    obtain ⟨hq, hr⟩ := add_a_after_b a1 t pa pb qp2 r2 hpb hpa h2
    subst hq
    exact ⟨hr, fun s p hs => complete_pair_same_ts_rejected t pa pb p s hpa hpb hs⟩
  · obtain ⟨c1, c2⟩ := add_a_ok qp qp1 t pa r1 h1
    obtain ⟨cts1, a1, b1⟩ := qp1
    simp only [] at c1 c2
    subst c1
    subst c2
    obtain ⟨hq, hr⟩ := add_b_after_a b1 t pa pb qp2 r2 hpb hpa h2
    subst hq
    exact ⟨hr, fun s p hs => complete_pair_same_ts_rejected t pa pb p s hpa hpb hs⟩

theorem quote_pair_spread_once_witness :
    some (2 : ℚ) = some ((3 : ℚ) - 1) ∧
    QuotePair.add ⟨some 1, some 3, some 1⟩ (.float 1) (.str ":b") (.float 5) =
      .error .quoteError := by
  have h := quote_pair_spread_once QuotePair.init ⟨some 1, none, some 1⟩
    ⟨some 1, some 3, some 1⟩ 1 3 1 none (some 2) (by norm_num) (by norm_num)
    (Or.inl ⟨by norm_num [QuotePair.add, QuotePair.init, QuotePair.finishAdd,
        QuotePair.update_quote, truthy, str_b_ne_a],
      by norm_num [QuotePair.add, QuotePair.finishAdd, QuotePair.update_quote,
        truthy, str_a_ne_b]⟩)
  exact ⟨h.1, h.2 ":b" 5 (Or.inr rfl)⟩

lemma coldInv_init : ColdInv TimeCache.init := Or.inl ⟨rfl, rfl⟩

lemma coldInv_add (tc tc' : TimeCache) (hinv : ColdInv tc) (hstep : TCAddStep tc tc') :
    ColdInv tc' := by
  obtain ⟨ts, sp, r, h⟩ := hstep
  cases ts with
  | float t =>
    cases sp with
    | float s =>
      rcases hinv with ⟨ha, htmp⟩ | ⟨t0, rest, ha⟩
      · simp only [TimeCache.add, TimeCache.cold_cache, ha, htmp, List.length_nil,
          if_true, List.nil_append, ite_true] at h
        rw [Except.ok.injEq, Prod.mk.injEq] at h
        obtain ⟨rfl, -⟩ := h
        exact Or.inr ⟨Int.floor t, [], rfl⟩
      · by_cases htmp : tc.tmp_cache.length = 0
        · have htmp' : tc.tmp_cache = [] := List.length_eq_zero.mp htmp
          simp only [TimeCache.add, TimeCache.cold_cache, htmp', ha, List.length_nil,
            List.length_cons, Nat.succ_ne_zero, if_true, if_false, ite_true, ite_false,
            List.nil_append, Option.some.injEq, one_ne_zero, reduceCtorEq] at h
          split_ifs at h <;> rw [Except.ok.injEq, Prod.mk.injEq] at h <;>
            obtain ⟨rfl, -⟩ := h
          · exact Or.inr ⟨t0, rest ++ [(Int.floor t,
              some (TimeCache.closingAverage ⟨(t0, none) :: rest, tc.last_spread,
                [(t, s)]⟩))], by simp [TimeCache.update_archive]⟩
          · exact Or.inr ⟨t0, rest, rfl⟩
        · simp only [TimeCache.add, TimeCache.cold_cache, htmp, if_neg, ite_false,
            Option.some.injEq, zero_ne_one, reduceCtorEq] at h
          split_ifs at h <;> rw [Except.ok.injEq, Prod.mk.injEq] at h <;>
            obtain ⟨rfl, -⟩ := h
          · exact Or.inr ⟨t0, rest ++ [(Int.floor t, some tc.closingAverage)],
              by simp [TimeCache.update_archive, ha]⟩
          · exact Or.inr ⟨t0, rest, by simp [ha]⟩
    | int z => simp [TimeCache.add] at h
    | str s2 => simp [TimeCache.add] at h
    | pynone => simp [TimeCache.add] at h
  | int z => simp [TimeCache.add] at h
  | str s2 => simp [TimeCache.add] at h
  | pynone => simp [TimeCache.add] at h

lemma tcAddReach_coldInv (tc : TimeCache) (h : TCAddReach tc) : ColdInv tc := by
  induction h with
  | refl => exact coldInv_init
  | tail _ hstep ih => exact coldInv_add _ _ ih hstep

/-- C3 counterexample: the invariant "the first archive entry's average is
`none`" does not survive `log()`: after `add(0.5, 1.0)`, `add(2.5, 1.0)`
and `log()`, the archive is truncated to its last entry `(2, some 1)`, a
reachable state whose first entry's average is `some 1`. -/
theorem first_archive_entry_none_cex :
    ¬ ∀ tc : TimeCache, TCReach tc → tc.archive ≠ [] →
        (tc.archive.headD (0, none)).2 = none := by
  intro hclaim
  have h1 : TimeCache.add TimeCache.init (.float 0.5) (.float 1) =
      .ok (⟨[(0, none)], none, [(0.5, 1)]⟩, none) := by
    norm_num [TimeCache.add, TimeCache.init, TimeCache.cold_cache]
  have h2 : TimeCache.add ⟨[(0, none)], none, [(0.5, 1)]⟩ (.float 2.5) (.float 1) =
      .ok (⟨[(0, none), (2, some 1)], some 1, [(2.5, 1)]⟩, some 1) := by
    norm_num [TimeCache.add, TimeCache.cold_cache, TimeCache.get_last_archive_ts,
      TimeCache.update_archive, TimeCache.closingAverage,
      TimeCache.get_spreads_and_time_weights, TimeCache.weight_time,
      interRecordWeights, float_multiplier, pyRound]
  have h3 : TimeCache.log ⟨[(0, none), (2, some 1)], some 1, [(2.5, 1)]⟩ =
      some ([(2000000, 1)], ⟨[(2, some 1)], some 1, [(2.5, 1)]⟩) := by
    norm_num [TimeCache.log, logWalk, pyInt, sec_to_microsec, Rat.num_ofNat,
      Rat.den_ofNat, Int.tdiv_one]
  have hreach : TCReach ⟨[(2, some 1)], some 1, [(2.5, 1)]⟩ :=
    Relation.ReflTransGen.tail
      (Relation.ReflTransGen.tail
        (Relation.ReflTransGen.tail Relation.ReflTransGen.refl
          (Or.inl ⟨.float 0.5, .float 1, none, h1⟩))
        (Or.inl ⟨.float 2.5, .float 1, some 1, h2⟩))
      (Or.inr ⟨[(2000000, 1)], h3⟩)
  have := hclaim _ hreach (by simp)
  simp at this

/-- C3 (amended): for every `TimeCache` reachable from the initial state by
`add()` calls alone (before any `log()` prunes the archive), a non-empty
archive starts with the cold-start sentinel whose average is `none`;
`log()` breaks this by truncating the archive to its last, non-`none`
entry. -/
theorem first_archive_entry_none_before_log (tc : TimeCache) (h : TCAddReach tc)
    (hne : tc.archive ≠ []) : (tc.archive.headD (0, none)).2 = none := by
  rcases tcAddReach_coldInv tc h with ⟨ha, -⟩ | ⟨t0, rest, ha⟩
  · exact absurd ha hne
  · simp [ha]

theorem first_archive_entry_none_before_log_witness :
    (((⟨[(0, none)], none, [(0.5, 1)]⟩ : TimeCache).archive.headD (0, none)).2 :
      Option ℚ) = none :=
  first_archive_entry_none_before_log ⟨[(0, none)], none, [(0.5, 1)]⟩
    (Relation.ReflTransGen.tail Relation.ReflTransGen.refl
      ⟨.float 0.5, .float 1, none, by
        norm_num [TimeCache.add, TimeCache.init, TimeCache.cold_cache]⟩)
    (by simp)

/-- C2: feeding the aggregator alternating bid/ask pairs at seconds
800.2, 800.6, 801.5, 803.3, 804.2 with spreads 0.10, 0.20, 0.10, 0.15,
0.10 emits exactly the per-second records 801 → 0.15, 802 → 0.15 (the gap
second filled by repeating the previous average), 803 → 0.15 and
804 → 0.135 = 0.10·0.3 + 0.15·0.7, in strictly increasing timestamp order
(timestamps are emitted in microseconds). -/
theorem end_to_end_emission :
    (compute_twa c2Records).map (fun r => r.2) =
      some [(801000000, 0.15), (802000000, 0.15), (803000000, 0.15),
            (804000000, 0.135)] := by
  have hq1 : QuotePair.add ⟨none, none, none⟩ (.float 800.2) (.str ":b") (.float 10.0) =
      .ok (⟨some 800.2, none, some 10⟩, none) := by
    norm_num [QuotePair.add, QuotePair.finishAdd, QuotePair.update_quote, truthy,
      str_b_ne_a]
  have hq2 : QuotePair.add ⟨some 800.2, none, some 10⟩ (.float 800.2) (.str ":a")
      (.float 10.10) = .ok (⟨some 800.2, some 10.1, some 10⟩, some 0.1) := by
    norm_num [QuotePair.add, QuotePair.finishAdd, QuotePair.update_quote, truthy,
      str_a_ne_b]
  have hq3 : QuotePair.add ⟨some 800.2, some 10.1, some 10⟩ (.float 800.6) (.str ":b")
      (.float 10.0) = .ok (⟨some 800.6, none, some 10⟩, none) := by
    norm_num [QuotePair.add, QuotePair.finishAdd, QuotePair.update_quote,
      QuotePair.clear_prices, truthy, str_b_ne_a]
    all_goals simp
  have hq4 : QuotePair.add ⟨some 800.6, none, some 10⟩ (.float 800.6) (.str ":a")
      (.float 10.20) = .ok (⟨some 800.6, some 10.2, some 10⟩, some 0.2) := by
    norm_num [QuotePair.add, QuotePair.finishAdd, QuotePair.update_quote, truthy,
      str_a_ne_b]
  have hq5 : QuotePair.add ⟨some 800.6, some 10.2, some 10⟩ (.float 801.5) (.str ":b")
      (.float 10.0) = .ok (⟨some 801.5, none, some 10⟩, none) := by
    norm_num [QuotePair.add, QuotePair.finishAdd, QuotePair.update_quote,
      QuotePair.clear_prices, truthy, str_b_ne_a]
    all_goals simp
  have hq6 : QuotePair.add ⟨some 801.5, none, some 10⟩ (.float 801.5) (.str ":a")
      (.float 10.10) = .ok (⟨some 801.5, some 10.1, some 10⟩, some 0.1) := by
    norm_num [QuotePair.add, QuotePair.finishAdd, QuotePair.update_quote, truthy,
      str_a_ne_b]
  have hq7 : QuotePair.add ⟨some 801.5, some 10.1, some 10⟩ (.float 803.3) (.str ":b")
      (.float 10.0) = .ok (⟨some 803.3, none, some 10⟩, none) := by
    norm_num [QuotePair.add, QuotePair.finishAdd, QuotePair.update_quote,
      QuotePair.clear_prices, truthy, str_b_ne_a]
    all_goals simp
  have hq8 : QuotePair.add ⟨some 803.3, none, some 10⟩ (.float 803.3) (.str ":a")
      (.float 10.15) = .ok (⟨some 803.3, some 10.15, some 10⟩, some 0.15) := by
    norm_num [QuotePair.add, QuotePair.finishAdd, QuotePair.update_quote, truthy,
      str_a_ne_b]
  have hq9 : QuotePair.add ⟨some 803.3, some 10.15, some 10⟩ (.float 804.2) (.str ":b")
      (.float 10.0) = .ok (⟨some 804.2, none, some 10⟩, none) := by
    norm_num [QuotePair.add, QuotePair.finishAdd, QuotePair.update_quote,
      QuotePair.clear_prices, truthy, str_b_ne_a]
    all_goals simp
  have hq10 : QuotePair.add ⟨some 804.2, none, some 10⟩ (.float 804.2) (.str ":a")
      (.float 10.10) = .ok (⟨some 804.2, some 10.1, some 10⟩, some 0.1) := by
    norm_num [QuotePair.add, QuotePair.finishAdd, QuotePair.update_quote, truthy,
      str_a_ne_b]
  have hc2 : TimeCache.add ⟨[], none, []⟩ (.float 800.2) (.float 0.1) =
      .ok (⟨[(800, none)], none, [(800.2, 0.1)]⟩, none) := by
    norm_num [TimeCache.add, TimeCache.cold_cache]
  have hc4 : TimeCache.add ⟨[(800, none)], none, [(800.2, 0.1)]⟩ (.float 800.6)
      (.float 0.2) =
      .ok (⟨[(800, none)], none, [(800.2, 0.1), (800.6, 0.2)]⟩, some 0) := by
    norm_num [TimeCache.add, TimeCache.cold_cache, TimeCache.get_last_archive_ts]
  have hc6 : TimeCache.add ⟨[(800, none)], none, [(800.2, 0.1), (800.6, 0.2)]⟩
      (.float 801.5) (.float 0.1) =
      .ok (⟨[(800, none), (801, some 0.15)], some 0.2, [(801.5, 0.1)]⟩, some 1) := by
    norm_num [TimeCache.add, TimeCache.cold_cache, TimeCache.get_last_archive_ts,
      TimeCache.update_archive, TimeCache.closingAverage,
      TimeCache.get_spreads_and_time_weights, TimeCache.weight_time,
      interRecordWeights, float_multiplier, pyRound]
  have hc8 : TimeCache.add ⟨[(801, some 0.15)], some 0.2, [(801.5, 0.1)]⟩
      (.float 803.3) (.float 0.15) =
      .ok (⟨[(801, some 0.15), (803, some 0.15)], some 0.1, [(803.3, 0.15)]⟩,
        some 1) := by
    norm_num [TimeCache.add, TimeCache.cold_cache, TimeCache.get_last_archive_ts,
      TimeCache.update_archive, TimeCache.closingAverage,
      TimeCache.get_spreads_and_time_weights, TimeCache.weight_time,
      interRecordWeights, float_multiplier, pyRound]
  have hc10 : TimeCache.add ⟨[(803, some 0.15)], some 0.1, [(803.3, 0.15)]⟩
      (.float 804.2) (.float 0.1) =
      .ok (⟨[(803, some 0.15), (804, some 0.135)], some 0.15, [(804.2, 0.1)]⟩,
        some 1) := by
    norm_num [TimeCache.add, TimeCache.cold_cache, TimeCache.get_last_archive_ts,
      TimeCache.update_archive, TimeCache.closingAverage,
      TimeCache.get_spreads_and_time_weights, TimeCache.weight_time,
      interRecordWeights, float_multiplier, pyRound]
  have hl6 : TimeCache.log ⟨[(800, none), (801, some 0.15)], some 0.2,
      [(801.5, 0.1)]⟩ =
      some ([(801000000, 0.15)], ⟨[(801, some 0.15)], some 0.2, [(801.5, 0.1)]⟩) := by
    norm_num [TimeCache.log, logWalk, fillGap, pyInt, sec_to_microsec,
      Rat.num_ofNat, Rat.den_ofNat, Int.tdiv_one, List.range_succ, List.range_zero]
  have hl8 : TimeCache.log ⟨[(801, some 0.15), (803, some 0.15)], some 0.1,
      [(803.3, 0.15)]⟩ =
      some ([(802000000, 0.15), (803000000, 0.15)],
        ⟨[(803, some 0.15)], some 0.1, [(803.3, 0.15)]⟩) := by
    norm_num [TimeCache.log, logWalk, fillGap, pyInt, sec_to_microsec,
      Rat.num_ofNat, Rat.den_ofNat, Int.tdiv_one, List.range_succ, List.range_zero]
  have hl10 : TimeCache.log ⟨[(803, some 0.15), (804, some 0.135)], some 0.15,
      [(804.2, 0.1)]⟩ =
      some ([(804000000, 0.135)], ⟨[(804, some 0.135)], some 0.15, [(804.2, 0.1)]⟩) := by
    norm_num [TimeCache.log, logWalk, fillGap, pyInt, sec_to_microsec,
      Rat.num_ofNat, Rat.den_ofNat, Int.tdiv_one, List.range_succ, List.range_zero]
  simp [compute_twa, c2Records, runRecords, processRecord, Driver.init,
    QuotePair.init, TimeCache.init, hq1, hq2, hq3, hq4, hq5, hq6, hq7, hq8, hq9,
    hq10, hc2, hc4, hc6, hc8, hc10, hl6, hl8, hl10]

end StreamingSpread
